import Mathlib

/-!
Shallow embedding of `src/python-ml-server/app.py` (Soil-Sync fertilizer
prediction service).

Modelling conventions:
* Python numbers are embedded as rationals (`ℚ`); `round(x, 1)` is embedded
  as `round1` below (round to the nearest tenth; the tie-breaking of Python
  float rounding is irrelevant to every statement proved here, all of which
  are either tie-insensitive or evaluated away from ties).
* JSON / parsed values are `Val` (a number or a string), request bodies are
  association lists with Python-dict lookup semantics (`Dict`).
* The externally trained classifier and label encoder (loaded from pickle
  files) are abstract: `MLModel` carries the predicted class as a function
  of the feature row and, optionally (`hasattr(model, "predict_proba")`),
  a class-probability function; `Encoder` carries `classes_`.
* String processing for the SMS webhook is embedded structurally over
  `List Char` (split / strip / lower), matching the Python string methods
  used by the source on the inputs that arise there.
-/

/-- A Python/JSON scalar value as the service manipulates it: a number or a
string. -/
inductive Val where
  | num (q : ℚ)
  | str (s : String)
deriving DecidableEq

/-- A request body / parsed-message mapping, with Python-dict lookup. -/
abbrev Dict := List (String × Val)

/-- Python `d[k]` / `k in d` lookup. -/
def dget? (d : Dict) (k : String) : Option Val :=
  List.lookup k d

/-- Python `d.get(k, "")`: lookup with the empty-string default used at
`input_data.get('Crop_Type', '')` in the source. -/
def dgetD (d : Dict) (k : String) : Val :=
  (dget? d k).getD (Val.str "")

/-- Python `d[k] = v`: map update. The source only ever looks keys up (it
iterates over fixed column lists, never over the dict), so any
lookup-extensionally correct update models the assignment. -/
def dinsert (d : Dict) (k : String) (v : Val) : Dict :=
  (k, v) :: d.filter (fun p => p.1 != k)

/-- `MODEL_COLUMNS` from the source (note the misspelled `Temparature`,
which is the trained model's own column name). -/
def MODEL_COLUMNS : List String :=
  ["Temparature", "Humidity", "Moisture", "Soil_Type", "Crop_Type",
   "Nitrogen", "Potassium", "Phosphorous"]

/-- `soil_type_map` from the source. -/
def soil_type_map : List (String × ℤ) :=
  [("Sandy", 0), ("Clay", 1), ("Loamy", 2), ("Black", 3), ("Red", 4), ("Clayey", 5)]

/-- `crop_type_map` from the source. -/
def crop_type_map : List (String × ℤ) :=
  [("Wheat", 0), ("Rice", 1), ("Maize", 2), ("Sugarcane", 3), ("Cotton", 4),
   ("Tobacco", 5), ("Paddy", 6), ("Barley", 7), ("Millets", 8), ("Oil seeds", 9),
   ("Pulses", 10), ("Ground Nuts", 11)]

/-- The abstract trained classifier (`classifier.pkl`): `predictCode` is
`int(model.predict(df)[0])` as a function of the feature row, and
`predictProba`, present exactly when `hasattr(model, 'predict_proba')`,
gives `model.predict_proba(df)[0][code]`. -/
structure MLModel where
  predictCode : List Val → ℤ
  predictProba : Option (List Val → ℤ → ℚ)

/-- The abstract label encoder (`fertilizer.pkl`): its `classes_` array. -/
structure Encoder where
  classes : List String

/-- The mutable state of `FertilizerModelServer`: `self.model` and
`self.label_encoder`, each `None` until loaded. -/
structure Server where
  model : Option MLModel
  label_encoder : Option Encoder

/-- Python `round(x, 1)`: round to the nearest tenth. -/
def round1 (x : ℚ) : ℚ :=
  ((round (10 * x) : ℤ) : ℚ) / 10

/-- The placeholder `application_rate = 150` (kg/ha) from the source. -/
def application_rate : ℕ := 150

/-- The derived expected-yield-increase score exactly as the source computes
it: `round(min((confidence / 100) * (application_rate / 150) * 40, 50), 1)`. -/
def scoreOf (confidence : ℚ) : ℚ :=
  round1 (min (confidence / 100 * ((application_rate : ℚ) / 150) * 40) 50)

/-- The confidence value: `round(predict_proba(df)[0][code] * 100, 1)` when
the model exposes `predict_proba`, else the fixed fallback `90.0`. -/
def confidenceOf (m : MLModel) (feats : List Val) (code : ℤ) : ℚ :=
  match m.predictProba with
  | some f => round1 (f feats code * 100)
  | none => 90

/-- ASCII rendering of a rational that is a whole number of tenths, as
Python formats such a float (`f"{36.0}" = "36.0"`, `f"{34.9}" = "34.9"`). -/
def fmt1 (q : ℚ) : String :=
  let tenths : ℕ := q.num.natAbs * 10 / q.den
  let s := toString (tenths / 10) ++ "." ++ toString (tenths % 10)
  if q < 0 then "-" ++ s else s

/-- Python `str(...)` of a `Val` as an f-string renders it (strings without
quotes; numbers via their decimal form). -/
def pyStr (v : Val) : String :=
  match v with
  | Val.str s => s
  | Val.num q => if q.den == 1 then toString q.num else fmt1 q

/-- Python `repr` of a list of strings, as an f-string renders
`list(map.keys())` or a list of field names. -/
def pyListRepr (xs : List String) : String :=
  "[" ++ String.intercalate ", " (xs.map (fun s => "'" ++ s ++ "'")) ++ "]"

/-- Eight consecutive characters matching the regex body `\d{2}-\d{2}-\d{2}`.
The source compiles the pattern over `str` without `re.ASCII`; the labels in
play are ASCII, and we embed `\d` as the ASCII digit class. -/
def npkCore (cs : List Char) : Bool :=
  match cs with
  | [a, b, c, d, e, f, g, h] =>
    a.isDigit && b.isDigit && c == '-' && d.isDigit && e.isDigit && f == '-'
      && g.isDigit && h.isDigit
  | _ => false

/-- `re.match(r'^(\d{2}-\d{2}-\d{2})$', s)` as a Boolean: Python `$` matches
at the end of the string or just before one newline at the end of the
string, so a single trailing `'\n'` is accepted. -/
def reMatchNpk (s : String) : Bool :=
  npkCore s.data || (s.data.getLast? == some '\n' && npkCore s.data.dropLast)

/-- Lines 95-99 of the source: prepend `"NPK "` when the predicted label
matches the NPK-blend regex, otherwise display it unchanged. -/
def fertDisplay (fert_name : String) : String :=
  if reMatchNpk fert_name then "NPK " ++ fert_name else fert_name

/-- Python sequence indexing `l[i]` on `label_encoder.classes_` with an
`int` index: non-negative indices from the front, negative indices wrap from
the back, anything else raises `IndexError` (here `none`). -/
def pyIndex (l : List String) (i : ℤ) : Option String :=
  if 0 ≤ i ∧ i < l.length then l.get? i.toNat
  else if -(l.length : ℤ) ≤ i ∧ i < 0 then l.get? ((l.length : ℤ) + i).toNat
  else none

/-- Categorical-code lookup: the Python membership test
`value not in soil_type_map` over a dict with string keys succeeds only for
a string value that is one of the keys. -/
def valCode (table : List (String × ℤ)) (v : Val) : Option ℤ :=
  match v with
  | Val.str s => List.lookup s table
  | Val.num _ => none

/-- `input_data['Soil_Type']` (guaranteed present where used). -/
def soilVal (input : Dict) : Val := dgetD input "Soil_Type"

/-- `input_data['Crop_Type']` (guaranteed present where used). -/
def cropVal (input : Dict) : Val := dgetD input "Crop_Type"

/-- Lines 80-89 of the source: the ordered feature row handed to
`pd.DataFrame(...)`, with the raw input values for the six numeric columns
(the source performs no coercion here) and the looked-up integer codes for
`Soil_Type` and `Crop_Type`. -/
def featuresOf (input : Dict) (soil crop : ℤ) : List Val :=
  [dgetD input "Temparature",
   dgetD input "Humidity",
   dgetD input "Moisture",
   Val.num soil,
   Val.num crop,
   dgetD input "Nitrogen",
   dgetD input "Potassium",
   dgetD input "Phosphorous"]

/-- The result dictionary built by `FertilizerModelServer.predict`. -/
structure Output where
  fertilizer_code : ℤ
  fertilizer_name : String
  applicationRateField : String
  confidence : String
  expected_yield_increase : String
  crop_name : Val
deriving DecidableEq

/-- `FertilizerModelServer.predict` (lines 62-123). Raised exceptions are
`Except.error` carrying the message of the re-raised
`Exception(f"Prediction failed: ...")`; accessing `.predict` / `.classes_`
on a `None` handle raises `AttributeError`, likewise caught and wrapped. -/
def predict (srv : Server) (input : Dict) : Except String Output :=
  match MODEL_COLUMNS.find? (fun c => (dget? input c).isNone) with
  | some c => Except.error ("Prediction failed: Missing required field: " ++ c)
  | none =>
    match valCode soil_type_map (soilVal input) with
    | none =>
      Except.error ("Prediction failed: Invalid Soil_Type: " ++ pyStr (soilVal input)
        ++ ". Allowed: " ++ pyListRepr (soil_type_map.map Prod.fst))
    | some soil =>
      match valCode crop_type_map (cropVal input) with
      | none =>
        Except.error ("Prediction failed: Invalid Crop_Type: " ++ pyStr (cropVal input)
          ++ ". Allowed: " ++ pyListRepr (crop_type_map.map Prod.fst))
      | some crop =>
        match srv.model with
        | none => Except.error "Prediction failed: 'NoneType' object has no attribute 'predict'"
        | some m =>
          match srv.label_encoder with
          | none => Except.error "Prediction failed: 'NoneType' object has no attribute 'classes_'"
          | some enc =>
            match pyIndex enc.classes (m.predictCode (featuresOf input soil crop)) with
            | none =>
              Except.error ("Prediction failed: index "
                ++ toString (m.predictCode (featuresOf input soil crop))
                ++ " is out of bounds")
            | some fert_name =>
              Except.ok
                { fertilizer_code := m.predictCode (featuresOf input soil crop),
                  fertilizer_name := fertDisplay fert_name,
                  applicationRateField := toString application_rate ++ " kg/ha",
                  confidence :=
                    fmt1 (confidenceOf m (featuresOf input soil crop)
                      (m.predictCode (featuresOf input soil crop))) ++ "%",
                  expected_yield_increase :=
                    "+" ++ fmt1 (scoreOf (confidenceOf m (featuresOf input soil crop)
                      (m.predictCode (featuresOf input soil crop)))) ++ "%",
                  crop_name := cropVal input }

/-- The `/predict` route's possible replies: a JSON payload, or an error
JSON with its HTTP status code. -/
inductive Resp where
  | ok (o : Output)
  | err (status : ℕ) (msg : String)
deriving DecidableEq

/-- `missing_fields = [col for col in MODEL_COLUMNS if col not in input_data]`
(used by both the `/predict` route and the SMS handler). -/
def missingOf (input : Dict) : List String :=
  MODEL_COLUMNS.filter (fun c => (dget? input c).isNone)

/-- The `/predict` route (lines 135-149): `None`/empty body is the falsy
`if not input_data` 400, then the missing-field 400, then `predict`, with
any raised exception answered as a 500 carrying `str(e)`. -/
def predictRoute (srv : Server) (body : Option Dict) : Resp :=
  match body with
  | none => Resp.err 400 "No input data provided"
  | some input =>
    if input.isEmpty then Resp.err 400 "No input data provided"
    else
      if (missingOf input).isEmpty then
        match predict srv input with
        | Except.ok o => Resp.ok o
        | Except.error e => Resp.err 500 e
      else Resp.err 400 ("Missing required fields: " ++ pyListRepr (missingOf input))

/-- Split a character list at every occurrence of `c` (Python
`s.split(c)`): accumulator-based, `splitChar c cs = splitCharAux c cs []`. -/
def splitCharAux (c : Char) : List Char → List Char → List (List Char)
  | [], acc => [acc.reverse]
  | x :: xs, acc =>
    if x = c then acc.reverse :: splitCharAux c xs []
    else splitCharAux c xs (x :: acc)

/-- Python `s.split(c)` over `List Char`. -/
def splitChar (c : Char) (cs : List Char) : List (List Char) :=
  splitCharAux c cs []

/-- Python `part.split(c, 1)` guarded by `if c in part`: `none` when `c`
does not occur, else the part before the first `c` and the rest after it. -/
def splitFirst (c : Char) : List Char → Option (List Char × List Char)
  | [] => none
  | x :: xs =>
    if x = c then some ([], xs)
    else
      match splitFirst c xs with
      | none => none
      | some (a, b) => some (x :: a, b)

/-- Python `s.strip()` over `List Char`. -/
def trimChars (cs : List Char) : List Char :=
  ((cs.dropWhile Char.isWhitespace).reverse.dropWhile Char.isWhitespace).reverse

/-- Python `s.lower()` over `List Char` (the keys in play are ASCII). -/
def lowerChars (cs : List Char) : List Char :=
  cs.map Char.toLower

/-- The SMS `key_map` (lines 176-191 of the source): note `p` maps to
`Phosphorous` and `k` to `Potassium`. -/
def key_map : List (String × String) :=
  [("temp", "Temparature"), ("temperature", "Temparature"),
   ("humidity", "Humidity"), ("moisture", "Moisture"),
   ("soil_type", "Soil_Type"), ("soil", "Soil_Type"),
   ("crop_type", "Crop_Type"), ("crop", "Crop_Type"),
   ("n", "Nitrogen"), ("nitrogen", "Nitrogen"),
   ("p", "Phosphorous"), ("phosphorous", "Phosphorous"),
   ("k", "Potassium"), ("potassium", "Potassium")]

/-- `mapped_key = key_map.get(key, key)`: an unrecognized key is kept
verbatim. -/
def mapKey (key : String) : String :=
  (List.lookup key key_map).getD key

/-- One iteration of the SMS parsing loop (lines 170-193): parts without a
colon are skipped; otherwise the key is stripped, lower-cased and mapped,
the value stripped, and the dict entry assigned (overwriting any earlier
one). -/
def smsStep (d : Dict) (part : List Char) : Dict :=
  match splitFirst ':' part with
  | none => d
  | some (k, v) =>
    dinsert d (mapKey (String.mk (lowerChars (trimChars k))))
      (Val.str (String.mk (trimChars v)))

/-- The SMS body parser: `incoming_msg = Body.strip()` split on commas and
folded through `smsStep`, starting from the empty dict. -/
def parseSms (body : String) : Dict :=
  (splitChar ',' (trimChars body.data)).foldl smsStep []

/-- The decimal core of Python `float(str)` on an unsigned body: digits
with at most one dot, at least one digit overall (exponent, `inf`, `nan`,
underscores and non-ASCII digits are outside the inputs modelled here). -/
def pfBody (cs : List Char) : Option ℚ :=
  match splitChar '.' cs with
  | [i] =>
    if !i.isEmpty && i.all Char.isDigit then
      some (i.foldl (fun n c => 10 * n + (c.toNat - 48)) (0 : ℕ) : ℕ)
    else none
  | [i, f] =>
    if (!i.isEmpty || !f.isEmpty) && i.all Char.isDigit && f.all Char.isDigit then
      some ((i.foldl (fun n c => 10 * n + (c.toNat - 48)) (0 : ℕ) : ℕ)
        + ((f.foldl (fun n c => 10 * n + (c.toNat - 48)) (0 : ℕ) : ℕ) : ℚ) / 10 ^ f.length)
    else none
  | _ => none

/-- An optional leading sign before the decimal body. -/
def pfSigned : List Char → Option ℚ
  | '-' :: rest => (pfBody rest).map (fun q => -q)
  | '+' :: rest => pfBody rest
  | cs => pfBody cs

/-- Python `float(s)` for a string: strip surrounding whitespace, optional
sign, decimal body; `none` models the raised `ValueError`. -/
def parseFloat? (s : String) : Option ℚ :=
  pfSigned (trimChars s.data)

/-- The six numeric SMS fields, in the order of line 196 of the source. -/
def NUMERIC_FIELDS : List String :=
  ["Temparature", "Humidity", "Moisture", "Nitrogen", "Potassium", "Phosphorous"]

/-- `data[field] = float(data[field])` for one field, when present: a float
value passes through `float()` unchanged, a string must parse or the
`ValueError` of `float()` is raised. -/
def convertField (d : Dict) (f : String) : Except String Dict :=
  match dget? d f with
  | none => Except.ok d
  | some (Val.num q) => Except.ok (dinsert d f (Val.num q))
  | some (Val.str s) =>
    match parseFloat? s with
    | some q => Except.ok (dinsert d f (Val.num q))
    | none => Except.error ("could not convert string to float: '" ++ s ++ "'")

/-- The conversion loop over a list of fields. -/
def convertNumericsAux : List String → Dict → Except String Dict
  | [], d => Except.ok d
  | f :: fs, d =>
    match convertField d f with
    | Except.error e => Except.error e
    | Except.ok d2 => convertNumericsAux fs d2

/-- Lines 195-198 of the source: coerce the six numeric fields that are
present; the first failing `float()` aborts the whole request body. -/
def convertNumerics (d : Dict) : Except String Dict :=
  convertNumericsAux NUMERIC_FIELDS d

/-- The body of the SMS webhook after signature validation (lines 162-215):
parse, coerce numerics, answer the missing-field text, else predict and
format; any exception is answered with the error-processing text. The
Twilio signature check and XML envelope are external collaborators and are
not modelled. -/
def smsReplyBody (srv : Server) (body : String) : String :=
  let data := parseSms body
  match convertNumerics data with
  | Except.error e => "Error processing your request: " ++ e
  | Except.ok d =>
    if (missingOf d).isEmpty then
      match predict srv d with
      | Except.ok r =>
        "Recommended Fertilizer: " ++ r.fertilizer_name ++ "\n"
          ++ "Application Rate: " ++ r.applicationRateField ++ "\n"
          ++ "Confidence: " ++ r.confidence ++ "\n"
          ++ "Expected Yield Increase: " ++ r.expected_yield_increase
      | Except.error e => "Error processing your request: " ++ e
    else
      "Missing fields: " ++ String.intercalate ", " (missingOf d)
        ++ ". Please send all required data."

/-- The filesystem / deserialization environment `load_model` runs in:
whether each artifact file exists, and what `joblib.load` yields for it (a
raised exception, including a malformed object failing the subsequent
`classes_` access, is `Except.error`). -/
structure LoadEnv where
  fertilizerExists : Bool
  classifierExists : Bool
  fertilizerLoad : Except String Encoder
  classifierLoad : Except String MLModel

/-- `FertilizerModelServer.load_model` (lines 39-60): missing files return
`False` early, loaded objects are assigned in order, and any raised
exception is caught and turned into `False`; the method never raises. -/
def load_model (env : LoadEnv) (srv : Server) : Bool × Server :=
  if !env.fertilizerExists then (false, srv)
  else
    match env.fertilizerLoad with
    | Except.error _ => (false, srv)
    | Except.ok enc =>
      let srv1 : Server := { srv with label_encoder := some enc }
      if !env.classifierExists then (false, srv1)
      else
        match env.classifierLoad with
        | Except.error _ => (false, srv1)
        | Except.ok m => (true, { srv1 with model := some m })

/-- `FertilizerModelServer.__init__`: both handles start as `None`, then
`load_model` runs once (its Boolean result is discarded). -/
def initServer (env : LoadEnv) : Server :=
  (load_model env { model := none, label_encoder := none }).2

/-- `GET /health` (lines 127-133): the status string and `model_loaded`
flag (the wall-clock timestamp is not modelled). -/
def health_check (srv : Server) : String × Bool :=
  ((if srv.model.isSome then "healthy" else "unhealthy"), srv.model.isSome)

deriving instance DecidableEq for Except

/-- Modelled from the claim's words (C4): a label that "matches the exact
pattern two-digits dash two-digits dash two-digits". -/
def specNpkExact (s : String) : Prop :=
  ∃ a b c d e f : Char, a.isDigit ∧ b.isDigit ∧ c.isDigit ∧ d.isDigit
    ∧ e.isDigit ∧ f.isDigit ∧ s = String.mk [a, b, '-', c, d, '-', e, f]

/-- Modelled from the claim's words (C1): the derived score
`min(confidence/100 * (application_rate/150) * 40, 50)` rounded to one
decimal place. -/
def specYieldScore (confidence rate : ℚ) : ℚ :=
  round1 (min (confidence / 100 * (rate / 150) * 40) 50)

/-- A concrete valid request body (the example of the specification). -/
def inputW : Dict :=
  [("Temparature", Val.num 25), ("Humidity", Val.num 60), ("Moisture", Val.num 30),
   ("Soil_Type", Val.str "Sandy"), ("Crop_Type", Val.str "Wheat"),
   ("Nitrogen", Val.num 50), ("Potassium", Val.num 20), ("Phosphorous", Val.num 30)]

/-- A concrete label encoder with eight classes. -/
def encW : Encoder :=
  { classes := ["Urea", "DAP", "14-35-14", "28-28", "17-17-17", "20-20", "10-26-26", "TSP"] }

/-- A concrete classifier that always predicts class 0 with probability
0.873. -/
def mW : MLModel :=
  { predictCode := fun _ => 0, predictProba := some (fun _ _ => 873 / 1000) }

/-- A server with `mW` and `encW` loaded. -/
def srvW : Server := { model := some mW, label_encoder := some encW }

/-- A server whose load failed: both handles are `None`. -/
def srv0 : Server := { model := none, label_encoder := none }

/-- The projection used to observe a route reply's payload class code. -/
def respCode (r : Resp) : Option ℤ :=
  match r with
  | Resp.ok o => some o.fertilizer_code
  | Resp.err _ _ => none

/-- `inputW` with the string `"abc"` in the numeric `Temparature` field. -/
def inputAbc : Dict :=
  [("Temparature", Val.str "abc"), ("Humidity", Val.num 60), ("Moisture", Val.num 30),
   ("Soil_Type", Val.str "Sandy"), ("Crop_Type", Val.str "Wheat"),
   ("Nitrogen", Val.num 50), ("Potassium", Val.num 20), ("Phosphorous", Val.num 30)]

/-- A classifier whose predicted class records whether the raw string
`"abc"` reached the model inside the feature row. -/
def mAbc : MLModel :=
  { predictCode := fun feats => if Val.str "abc" ∈ feats then 7 else 0,
    predictProba := none }

/-- A server with `mAbc` and `encW` loaded. -/
def srvAbc : Server := { model := some mAbc, label_encoder := some encW }

/-- The label encoder holding the NPK-with-trailing-newline class label. -/
def encNl : Encoder := { classes := ["20-20-20\n"] }

/-- A probability-free classifier predicting class 0, and a server holding
it together with `encNl`. -/
def srvNl : Server :=
  { model := some { predictCode := fun _ => 0, predictProba := none },
    label_encoder := some encNl }

/-- The full response `predict srvNl inputW` evaluates to. -/
def outNl : Output :=
  { fertilizer_code := 0, fertilizer_name := "NPK 20-20-20\n",
    applicationRateField := "150 kg/ha", confidence := "90.0%",
    expected_yield_increase := "+36.0%", crop_name := Val.str "Wheat" }

/-- The full response `predict srvW inputW` evaluates to. -/
def outW : Output :=
  { fertilizer_code := 0, fertilizer_name := "Urea",
    applicationRateField := "150 kg/ha", confidence := "87.3%",
    expected_yield_increase := "+34.9%", crop_name := Val.str "Wheat" }

/-- `inputW` with the unrecognized soil type `"Volcanic"`. -/
def inputBad : Dict :=
  [("Temparature", Val.num 25), ("Humidity", Val.num 60), ("Moisture", Val.num 30),
   ("Soil_Type", Val.str "Volcanic"), ("Crop_Type", Val.str "Wheat"),
   ("Nitrogen", Val.num 50), ("Potassium", Val.num 20), ("Phosphorous", Val.num 30)]

/-- `inputW` with the `Humidity` field removed. -/
def inputMiss : Dict :=
  [("Temparature", Val.num 25), ("Moisture", Val.num 30),
   ("Soil_Type", Val.str "Sandy"), ("Crop_Type", Val.str "Wheat"),
   ("Nitrogen", Val.num 50), ("Potassium", Val.num 20), ("Phosphorous", Val.num 30)]

/-- A load environment in which both artifact files are absent. -/
def envW : LoadEnv :=
  { fertilizerExists := false, classifierExists := false,
    fertilizerLoad := Except.error "file not found",
    classifierLoad := Except.error "file not found" }

lemma find?_none_of_missing_nil {input : Dict} (h : missingOf input = []) :
    MODEL_COLUMNS.find? (fun c => (dget? input c).isNone) = none := by
  rw [List.find?_eq_none]
  intro x hx
  simpa using List.filter_eq_nil_iff.mp h x hx

lemma predict_ok_form (srv : Server) (input : Dict) (m : MLModel) (enc : Encoder)
    (soil crop : ℤ) (name : String)
    (hm : srv.model = some m) (he : srv.label_encoder = some enc)
    (hmiss : missingOf input = [])
    (hsoil : valCode soil_type_map (soilVal input) = some soil)
    (hcrop : valCode crop_type_map (cropVal input) = some crop)
    (hname : pyIndex enc.classes (m.predictCode (featuresOf input soil crop)) = some name) :
    predict srv input = Except.ok
      { fertilizer_code := m.predictCode (featuresOf input soil crop),
        fertilizer_name := fertDisplay name,
        applicationRateField := toString application_rate ++ " kg/ha",
        confidence :=
          fmt1 (confidenceOf m (featuresOf input soil crop)
            (m.predictCode (featuresOf input soil crop))) ++ "%",
        expected_yield_increase :=
          "+" ++ fmt1 (scoreOf (confidenceOf m (featuresOf input soil crop)
            (m.predictCode (featuresOf input soil crop)))) ++ "%",
        crop_name := cropVal input } := by
  simp only [predict, find?_none_of_missing_nil hmiss, hsoil, hcrop, hm, he, hname]

lemma predictRoute_valid (srv : Server) (input : Dict)
    (hne : input ≠ []) (hmiss : missingOf input = []) :
    predictRoute srv (some input) =
      match predict srv input with
      | Except.ok o => Resp.ok o
      | Except.error e => Resp.err 500 e := by
  have h1 : input.isEmpty = false := by simp [List.isEmpty_eq_false, hne]
  simp only [predictRoute, h1, hmiss, List.isEmpty_nil, if_true, Bool.false_eq_true,
    if_false]

lemma predict_ok_inv (srv : Server) (input : Dict) (o : Output)
    (h : predict srv input = Except.ok o) :
    ∃ m enc soil crop name,
      srv.model = some m ∧ srv.label_encoder = some enc ∧
      valCode soil_type_map (soilVal input) = some soil ∧
      valCode crop_type_map (cropVal input) = some crop ∧
      pyIndex enc.classes (m.predictCode (featuresOf input soil crop)) = some name ∧
      o = { fertilizer_code := m.predictCode (featuresOf input soil crop),
            fertilizer_name := fertDisplay name,
            applicationRateField := toString application_rate ++ " kg/ha",
            confidence :=
              fmt1 (confidenceOf m (featuresOf input soil crop)
                (m.predictCode (featuresOf input soil crop))) ++ "%",
            expected_yield_increase :=
              "+" ++ fmt1 (scoreOf (confidenceOf m (featuresOf input soil crop)
                (m.predictCode (featuresOf input soil crop)))) ++ "%",
            crop_name := cropVal input } := by
  unfold predict at h
  split at h
  · exact absurd h (by simp)
  split at h
  · exact absurd h (by simp)
  next soil hsoil =>
  split at h
  · exact absurd h (by simp)
  next crop hcrop =>
  split at h
  · exact absurd h (by simp)
  next m hm =>
  split at h
  · exact absurd h (by simp)
  next enc henc =>
  split at h
  · exact absurd h (by simp)
  next name hname =>
  exact ⟨m, enc, soil, crop, name, hm, henc, hsoil, hcrop, hname,
    (Except.ok.injEq _ _).mp h.symm⟩

lemma npkCore_iff (cs : List Char) :
    npkCore cs = true ↔
      ∃ a b c d e f : Char, a.isDigit ∧ b.isDigit ∧ c.isDigit ∧ d.isDigit
        ∧ e.isDigit ∧ f.isDigit ∧ cs = [a, b, '-', c, d, '-', e, f] := by
  constructor
  · intro h
    unfold npkCore at h
    split at h
    next a b c d e f g h2 =>
      simp only [Bool.and_eq_true, beq_iff_eq] at h
      obtain ⟨⟨⟨⟨⟨⟨⟨ha, hb⟩, hc⟩, hd⟩, he⟩, hf⟩, hg⟩, hh⟩ := h
      subst hc; subst hf
      exact ⟨a, b, d, e, g, h2, ha, hb, hd, he, hg, hh, rfl⟩
    next => exact absurd h (by simp)
  · rintro ⟨a, b, c, d, e, f, ha, hb, hc, hd, he, hf, rfl⟩
    simp [npkCore, ha, hb, hc, hd, he, hf]

lemma specNpkExact_iff (s : String) : specNpkExact s ↔ npkCore s.data = true := by
  unfold specNpkExact
  rw [npkCore_iff]
  constructor
  · rintro ⟨a, b, c, d, e, f, ha, hb, hc, hd, he, hf, rfl⟩
    exact ⟨a, b, c, d, e, f, ha, hb, hc, hd, he, hf, rfl⟩
  · rintro ⟨a, b, c, d, e, f, ha, hb, hc, hd, he, hf, hdata⟩
    exact ⟨a, b, c, d, e, f, ha, hb, hc, hd, he, hf, String.ext hdata⟩

lemma reMatchNpk_iff (s : String) :
    reMatchNpk s = true ↔
      specNpkExact s ∨ ∃ t : String, specNpkExact t ∧ s = t ++ "\n" := by
  rw [reMatchNpk, Bool.or_eq_true, Bool.and_eq_true, beq_iff_eq, specNpkExact_iff]
  constructor
  · rintro (h | ⟨hlast, hcore⟩)
    · exact Or.inl h
    · refine Or.inr ⟨String.mk s.data.dropLast, (specNpkExact_iff _).mpr hcore, ?_⟩
      apply String.ext
      rw [String.data_append]
      show s.data = s.data.dropLast ++ "\n".data
      have hne : s.data ≠ [] := by
        intro h0
        rw [h0] at hlast
        exact absurd hlast (by simp)
      calc s.data = s.data.dropLast ++ [s.data.getLast hne] :=
            (List.dropLast_append_getLast hne).symm
        _ = s.data.dropLast ++ "\n".data := by
            have := List.getLast?_eq_getLast s.data hne
            rw [hlast] at this
            have hc : s.data.getLast hne = '\n' := by
              exact (Option.some.injEq _ _).mp this.symm
            rw [hc]
  · rintro (h | ⟨t, ht, rfl⟩)
    · exact Or.inl h
    · right
      have hdata : (t ++ "\n").data = t.data ++ ['\n'] := by
        rw [String.data_append]
      constructor
      · rw [hdata]
        simp
      · rw [hdata]
        simpa using (specNpkExact_iff t).mp ht


/-- Claim C4, counterexample: the label `"20-20-20\n"` does not match the
exact two-digit dash two-digit dash two-digit pattern, yet the code prefixes
it with `"NPK "` (Python `$` also matches just before a trailing newline),
and a prediction run against an encoder holding that label displays the
prefixed name. -/
theorem C4_cex :
    fertDisplay "20-20-20\n" = "NPK " ++ "20-20-20\n"
    ∧ ¬ specNpkExact "20-20-20\n"
    ∧ predict srvNl inputW = Except.ok outNl := by
  refine ⟨by decide, ?_, by with_unfolding_all decide⟩
  intro hp
  exact absurd ((specNpkExact_iff _).mp hp) (by decide)

/-- Claim C4, amended: the displayed fertilizer name is the label prefixed
with `"NPK "` if and only if the label matches the two-digit dash two-digit
dash two-digit pattern either exactly or followed by one trailing newline
(Python `$` semantics); any other label is displayed unchanged. -/
theorem C4_npk_display (s : String) :
    (fertDisplay s = "NPK " ++ s ↔
      specNpkExact s ∨ ∃ t : String, specNpkExact t ∧ s = t ++ "\n")
    ∧ (¬ (specNpkExact s ∨ ∃ t : String, specNpkExact t ∧ s = t ++ "\n") →
      fertDisplay s = s) := by
  constructor
  · constructor
    · intro hd
      by_cases hr : reMatchNpk s = true
      · exact (reMatchNpk_iff s).mp hr
      · exfalso
        rw [fertDisplay, if_neg hr] at hd
        have hlen := congrArg String.length hd
        rw [String.length_append] at hlen
        have h4 : ("NPK " : String).length = 4 := rfl
        rw [h4] at hlen
        omega
    · intro hp
      rw [fertDisplay, if_pos ((reMatchNpk_iff s).mpr hp)]
  · intro hp
    rw [fertDisplay, if_neg (fun hr => hp ((reMatchNpk_iff s).mp hr))]

/-- Claim C4 witness: the amended statement applied at the labels
`"20-20-20"` (prefixed) and `"Urea"` (unchanged). -/
theorem C4_npk_display_witness :
    fertDisplay "20-20-20" = "NPK " ++ "20-20-20" ∧ fertDisplay "Urea" = "Urea" := by
  constructor
  · exact (C4_npk_display "20-20-20").1.mpr
      (Or.inl ⟨'2', '0', '2', '0', '2', '0', by decide, by decide, by decide,
        by decide, by decide, by decide, by decide⟩)
  · exact (C4_npk_display "Urea").2 (by
      rintro (hp | ⟨t, ht, happ⟩)
      · exact absurd ((specNpkExact_iff _).mp hp) (by decide)
      · have := congrArg String.data happ
        rw [String.data_append] at this
        have hlen := congrArg List.length this
        have ht8 : t.data.length = 8 := by
          obtain ⟨a, b, c, d, e, f, -, -, -, -, -, -, rfl⟩ := ht
          rfl
        simp [ht8] at hlen)

lemma scoreOf_eq (c : ℚ) :
    scoreOf c = ((⌊10 * min (2 * c / 5) 50 + 1 / 2⌋ : ℤ) : ℚ) / 10 := by
  have h150 : ((application_rate : ℚ) / 150) = 1 := by norm_num [application_rate]
  rw [scoreOf, h150]
  have h2 : c / 100 * 1 * 40 = 2 * c / 5 := by ring
  rw [h2, round1, round_eq]

/-- Claim C6: for confidence in `[0, 100]` and the fixed application rate,
the derived score lies in `[0, 50]`, and the score is monotonically
non-decreasing in the confidence. -/
theorem C6_score_bounded_monotone (c c1 c2 : ℚ)
    (h0 : 0 ≤ c) (h1 : c ≤ 100) (h2 : c1 ≤ c2) :
    0 ≤ scoreOf c ∧ scoreOf c ≤ 50 ∧ scoreOf c1 ≤ scoreOf c2 := by
  refine ⟨?_, ?_, ?_⟩
  · rw [scoreOf_eq]
    have hy0 : (0 : ℚ) ≤ min (2 * c / 5) 50 := le_min (by linarith) (by norm_num)
    have hfl : (0 : ℤ) ≤ ⌊10 * min (2 * c / 5) 50 + 1 / 2⌋ :=
      Int.le_floor.mpr (by push_cast; linarith)
    have hq : (0 : ℚ) ≤ ((⌊10 * min (2 * c / 5) 50 + 1 / 2⌋ : ℤ) : ℚ) := by
      exact_mod_cast hfl
    linarith
  · rw [scoreOf_eq]
    have hy40 : min (2 * c / 5) 50 ≤ 40 := le_trans (min_le_left _ _) (by linarith)
    have hub : ((⌊10 * min (2 * c / 5) 50 + 1 / 2⌋ : ℤ) : ℚ)
        ≤ 10 * min (2 * c / 5) 50 + 1 / 2 := Int.floor_le _
    linarith
  · rw [scoreOf_eq, scoreOf_eq]
    have hmin : min (2 * c1 / 5) 50 ≤ min (2 * c2 / 5) 50 :=
      min_le_min (by linarith) le_rfl
    have hfl := Int.floor_le_floor
      (show 10 * min (2 * c1 / 5) 50 + 1 / 2 ≤ 10 * min (2 * c2 / 5) 50 + 1 / 2 by linarith)
    have hq : ((⌊10 * min (2 * c1 / 5) 50 + 1 / 2⌋ : ℤ) : ℚ)
        ≤ ((⌊10 * min (2 * c2 / 5) 50 + 1 / 2⌋ : ℤ) : ℚ) := by exact_mod_cast hfl
    linarith

/-- Claim C6 witness: the bounds and monotonicity at the concrete
confidences 30 and 80. -/
theorem C6_score_bounded_monotone_witness :
    0 ≤ scoreOf 30 ∧ scoreOf 30 ≤ 50 ∧ scoreOf 30 ≤ scoreOf 80 :=
  C6_score_bounded_monotone 30 30 80 (by norm_num) (by norm_num) (by norm_num)

lemma dget?_dinsert_self (d : Dict) (k : String) (v : Val) :
    dget? (dinsert d k v) k = some v := by
  simp [dget?, dinsert, List.lookup]

lemma lookup_filter_ne (d : Dict) (k k2 : String) (h : k2 ≠ k) :
    List.lookup k2 (d.filter (fun p => p.1 != k)) = List.lookup k2 d := by
  induction d with
  | nil => rfl
  | cons p t ih =>
    obtain ⟨a, b⟩ := p
    by_cases hak : a = k
    · subst hak
      simp [List.filter_cons, List.lookup, beq_eq_false_iff_ne.mpr h, ih]
    · simp [List.filter_cons, bne_iff_ne.mpr hak, List.lookup, ih]

lemma dget?_dinsert_ne (d : Dict) (k : String) (v : Val) (k2 : String) (h : k2 ≠ k) :
    dget? (dinsert d k v) k2 = dget? d k2 := by
  rw [dget?, dinsert, List.lookup, beq_eq_false_iff_ne.mpr h]
  exact lookup_filter_ne d k k2 h

lemma convertField_ok_cases (d : Dict) (g : String) (d2 : Dict)
    (h : convertField d g = Except.ok d2) :
    d2 = d ∨ ∃ q, d2 = dinsert d g (Val.num q) := by
  unfold convertField at h
  split at h
  · exact Or.inl (((Except.ok.injEq _ _).mp h).symm)
  next q _ => exact Or.inr ⟨q, (((Except.ok.injEq _ _).mp h).symm)⟩
  next s _ =>
    split at h
    next q _ => exact Or.inr ⟨q, (((Except.ok.injEq _ _).mp h).symm)⟩
    · exact absurd h (by simp)

lemma convertField_preserve (d : Dict) (g : String) (d2 : Dict) (f : String)
    (h : convertField d g = Except.ok d2) (hne : f ≠ g) :
    dget? d2 f = dget? d f := by
  rcases convertField_ok_cases d g d2 h with rfl | ⟨q, rfl⟩
  · rfl
  · exact dget?_dinsert_ne d g (Val.num q) f hne

lemma convertField_num (d : Dict) (g : String) (d2 : Dict)
    (h : convertField d g = Except.ok d2) :
    ∀ v, dget? d2 g = some v → ∃ q, v = Val.num q := by
  unfold convertField at h
  split at h
  next hnone =>
    intro v hv
    rw [(((Except.ok.injEq _ _).mp h).symm : d2 = d), hnone] at hv
    exact absurd hv (by simp)
  next q _ =>
    intro v hv
    rw [(((Except.ok.injEq _ _).mp h).symm : d2 = dinsert d g (Val.num q)),
      dget?_dinsert_self] at hv
    exact ⟨q, ((Option.some.injEq _ _).mp hv).symm⟩
  next s _ =>
    split at h
    next q _ =>
      intro v hv
      rw [(((Except.ok.injEq _ _).mp h).symm : d2 = dinsert d g (Val.num q)),
        dget?_dinsert_self] at hv
      exact ⟨q, ((Option.some.injEq _ _).mp hv).symm⟩
    · exact absurd h (by simp)

lemma convertAux_num (fs : List String) (f : String) :
    ∀ d d2 : Dict, convertNumericsAux fs d = Except.ok d2 →
    (f ∈ fs ∨ ∀ v, dget? d f = some v → ∃ q, v = Val.num q) →
    ∀ v, dget? d2 f = some v → ∃ q, v = Val.num q := by
  induction fs with
  | nil =>
    intro d d2 h hf v hv
    unfold convertNumericsAux at h
    cases h
    rcases hf with h0 | h0
    · exact absurd h0 (List.not_mem_nil f)
    · exact h0 v hv
  | cons g t ih =>
    intro d d2 h hf v hv
    unfold convertNumericsAux at h
    split at h
    · exact absurd h (by simp)
    next d1 hg =>
      by_cases hfg : f = g
      · subst hfg
        exact ih d1 d2 h (Or.inr (convertField_num d f d1 hg)) v hv
      · rcases hf with h0 | h0
        · rcases List.mem_cons.mp h0 with rfl | hmem
          · exact absurd rfl hfg
          · exact ih d1 d2 h (Or.inl hmem) v hv
        · refine ih d1 d2 h (Or.inr ?_) v hv
          intro w hw
          rw [convertField_preserve d g d1 f hg hfg] at hw
          exact h0 w hw

lemma convertAux_err (fs : List String) (f s : String) (hf : f ∈ fs) :
    ∀ d : Dict, dget? d f = some (Val.str s) → parseFloat? s = none →
    ∀ d2, convertNumericsAux fs d ≠ Except.ok d2 := by
  induction fs with
  | nil => exact absurd hf (List.not_mem_nil f)
  | cons g t ih =>
    intro d hv hp d2 h
    unfold convertNumericsAux at h
    split at h
    · exact absurd h (by simp)
    next d1 hg =>
      by_cases hfg : f = g
      · subst hfg
        simp [convertField, hv, hp] at hg
      · rcases List.mem_cons.mp hf with rfl | hmem
        · exact absurd rfl hfg
        · have hv1 : dget? d1 f = some (Val.str s) := by
            rw [convertField_preserve d g d1 f hg hfg]
            exact hv
          exact ih hmem d1 hv1 hp d2 h

/-- Claim C1: for every successful prediction, the expected-yield-increase
score is `min(confidence/100 * (application_rate/150) * 40, 50)` rounded to
one decimal place with the fixed rate 150, and the response field is that
number prefixed with `+` and suffixed with `%`. -/
theorem C1_expected_yield (srv : Server) (input : Dict) (o : Output)
    (h : predict srv input = Except.ok o) :
    ∃ m soil crop, srv.model = some m
      ∧ o.expected_yield_increase =
        "+" ++ fmt1 (specYieldScore
          (confidenceOf m (featuresOf input soil crop)
            (m.predictCode (featuresOf input soil crop)))
          (application_rate : ℚ)) ++ "%" := by
  obtain ⟨m, enc, soil, crop, name, hm, -, -, -, -, rfl⟩ := predict_ok_inv srv input o h
  exact ⟨m, soil, crop, hm, rfl⟩

/-- Claim C1 witness: the theorem applied to the concrete prediction
`predict srvW inputW`, whose yield field is `"+34.9%"`. -/
theorem C1_expected_yield_witness :
    ∃ m soil crop, srvW.model = some m
      ∧ outW.expected_yield_increase =
        "+" ++ fmt1 (specYieldScore
          (confidenceOf m (featuresOf inputW soil crop)
            (m.predictCode (featuresOf inputW soil crop)))
          (application_rate : ℚ)) ++ "%" :=
  C1_expected_yield srvW inputW outW (by with_unfolding_all decide)

/-- Claim C5: for every successful prediction, when the model exposes
`predict_proba` the reported confidence is the predicted class probability
times 100 rounded to one decimal, otherwise the fallback 90.0; the response
field is that number suffixed with `%`. -/
theorem C5_confidence (srv : Server) (input : Dict) (o : Output)
    (h : predict srv input = Except.ok o) :
    ∃ m soil crop, srv.model = some m
      ∧ (∀ f, m.predictProba = some f →
          o.confidence =
            fmt1 (round1 (f (featuresOf input soil crop)
              (m.predictCode (featuresOf input soil crop)) * 100)) ++ "%")
      ∧ (m.predictProba = none → o.confidence = "90.0%") := by
  obtain ⟨m, enc, soil, crop, name, hm, -, -, -, -, rfl⟩ := predict_ok_inv srv input o h
  refine ⟨m, soil, crop, hm, ?_, ?_⟩
  · intro f hf
    show fmt1 (confidenceOf m (featuresOf input soil crop)
      (m.predictCode (featuresOf input soil crop))) ++ "%" = _
    rw [confidenceOf, hf]
  · intro hf
    show fmt1 (confidenceOf m (featuresOf input soil crop)
      (m.predictCode (featuresOf input soil crop))) ++ "%" = "90.0%"
    simp only [confidenceOf, hf]
    with_unfolding_all decide

/-- Claim C5 witness: the theorem applied to the concrete prediction
`predict srvW inputW` (probability 0.873, confidence field `"87.3%"`). -/
theorem C5_confidence_witness :
    ∃ m soil crop, srvW.model = some m
      ∧ (∀ f, m.predictProba = some f →
          outW.confidence =
            fmt1 (round1 (f (featuresOf inputW soil crop)
              (m.predictCode (featuresOf inputW soil crop)) * 100)) ++ "%")
      ∧ (m.predictProba = none → outW.confidence = "90.0%") :=
  C5_confidence srvW inputW outW (by with_unfolding_all decide)

/-- Claim C3: valid categorical values are translated through the static
synonym tables into the feature row (`Sandy` to code 0, `Wheat` to code 0),
and an unrecognized `Soil_Type` or `Crop_Type` fails with a validation
error enumerating the allowed values. -/
theorem C3_categorical_codes :
    (List.lookup "Sandy" soil_type_map = some 0
      ∧ List.lookup "Wheat" crop_type_map = some 0)
    ∧ (∀ (srv : Server) (input : Dict) (m : MLModel) (enc : Encoder)
        (soil crop : ℤ) (name : String),
        srv.model = some m → srv.label_encoder = some enc →
        missingOf input = [] →
        valCode soil_type_map (soilVal input) = some soil →
        valCode crop_type_map (cropVal input) = some crop →
        pyIndex enc.classes (m.predictCode (featuresOf input soil crop)) = some name →
        ∃ o, predict srv input = Except.ok o
          ∧ o.fertilizer_code = m.predictCode (featuresOf input soil crop)
          ∧ (featuresOf input soil crop).get? 3 = some (Val.num soil)
          ∧ (featuresOf input soil crop).get? 4 = some (Val.num crop))
    ∧ (∀ (srv : Server) (input : Dict),
        missingOf input = [] →
        valCode soil_type_map (soilVal input) = none →
        predict srv input = Except.error
          ("Prediction failed: Invalid Soil_Type: " ++ pyStr (soilVal input)
            ++ ". Allowed: " ++ pyListRepr (soil_type_map.map Prod.fst)))
    ∧ (∀ (srv : Server) (input : Dict) (soil : ℤ),
        missingOf input = [] →
        valCode soil_type_map (soilVal input) = some soil →
        valCode crop_type_map (cropVal input) = none →
        predict srv input = Except.error
          ("Prediction failed: Invalid Crop_Type: " ++ pyStr (cropVal input)
            ++ ". Allowed: " ++ pyListRepr (crop_type_map.map Prod.fst))) := by
  refine ⟨⟨by decide, by decide⟩, ?_, ?_, ?_⟩
  · intro srv input m enc soil crop name hm he hmiss hsoil hcrop hname
    exact ⟨_, predict_ok_form srv input m enc soil crop name hm he hmiss hsoil hcrop hname,
      rfl, rfl, rfl⟩
  · intro srv input hmiss hsoil
    simp only [predict, find?_none_of_missing_nil hmiss, hsoil]
  · intro srv input soil hmiss hsoil hcrop
    simp only [predict, find?_none_of_missing_nil hmiss, hsoil, hcrop]

/-- Claim C3 witness: the mapped codes inside a successful concrete
prediction, and the error for the unrecognized soil type `"Volcanic"`. -/
theorem C3_categorical_codes_witness :
    (∃ o, predict srvW inputW = Except.ok o
      ∧ o.fertilizer_code = mW.predictCode (featuresOf inputW 0 0)
      ∧ (featuresOf inputW 0 0).get? 3 = some (Val.num 0)
      ∧ (featuresOf inputW 0 0).get? 4 = some (Val.num 0))
    ∧ predict srv0 inputBad = Except.error
        ("Prediction failed: Invalid Soil_Type: " ++ pyStr (soilVal inputBad)
          ++ ". Allowed: " ++ pyListRepr (soil_type_map.map Prod.fst)) :=
  ⟨C3_categorical_codes.2.1 srvW inputW mW encW 0 0 "Urea" rfl rfl (by decide)
      (by decide) (by decide) (by decide),
    C3_categorical_codes.2.2.1 srv0 inputBad (by decide) (by decide)⟩

/-- Claim C2, counterexample: an empty JSON object lacks all eight required
fields, yet `/predict` answers the generic `"No input data provided"`
message rather than naming them; and the SMS body `"temp:abc"` lacks seven
required fields, yet the reply is the float-conversion error text, not the
missing-fields list (conversion runs before the missing-field check). -/
theorem C2_cex :
    (predictRoute srv0 (some []) = Resp.err 400 "No input data provided"
      ∧ "No input data provided"
          ≠ "Missing required fields: " ++ pyListRepr (missingOf []))
    ∧ (smsReplyBody srv0 "temp:abc"
          = "Error processing your request: could not convert string to float: 'abc'"
      ∧ smsReplyBody srv0 "temp:abc"
          ≠ "Missing fields: "
            ++ String.intercalate ", " (missingOf (parseSms "temp:abc"))
            ++ ". Please send all required data.") := by
  exact ⟨⟨by decide, by decide⟩, ⟨by with_unfolding_all decide, by with_unfolding_all decide⟩⟩

/-- Claim C2, amended: a non-empty `/predict` body lacking required fields
is answered 400 naming exactly the missing fields without invoking the
model, and `missingOf` is exactly the set of required fields absent from
the input; on `/sms` the same holds provided every supplied numeric field
passes float conversion. -/
theorem C2_missing_fields :
    (∀ (srv srv2 : Server) (input : Dict), input ≠ [] → missingOf input ≠ [] →
      predictRoute srv (some input)
          = Resp.err 400 ("Missing required fields: " ++ pyListRepr (missingOf input))
        ∧ predictRoute srv (some input) = predictRoute srv2 (some input))
    ∧ (∀ (input : Dict) (c : String),
        c ∈ missingOf input ↔ c ∈ MODEL_COLUMNS ∧ dget? input c = none)
    ∧ (∀ (srv srv2 : Server) (body : String) (d : Dict),
        convertNumerics (parseSms body) = Except.ok d → missingOf d ≠ [] →
        smsReplyBody srv body
            = "Missing fields: " ++ String.intercalate ", " (missingOf d)
              ++ ". Please send all required data."
          ∧ smsReplyBody srv body = smsReplyBody srv2 body) := by
  have hroute : ∀ (srv : Server) (input : Dict), input ≠ [] → missingOf input ≠ [] →
      predictRoute srv (some input)
        = Resp.err 400 ("Missing required fields: " ++ pyListRepr (missingOf input)) := by
    intro srv input hne hmiss
    have h1 : input.isEmpty = false := by simp [List.isEmpty_eq_false, hne]
    have h2 : (missingOf input).isEmpty = false := by simp [List.isEmpty_eq_false, hmiss]
    simp only [predictRoute, h1, h2, Bool.false_eq_true, if_false]
  have hsms : ∀ (srv : Server) (body : String) (d : Dict),
      convertNumerics (parseSms body) = Except.ok d → missingOf d ≠ [] →
      smsReplyBody srv body
        = "Missing fields: " ++ String.intercalate ", " (missingOf d)
          ++ ". Please send all required data." := by
    intro srv body d hconv hmiss
    have h2 : (missingOf d).isEmpty = false := by simp [List.isEmpty_eq_false, hmiss]
    simp only [smsReplyBody, hconv, h2, Bool.false_eq_true, if_false]
  refine ⟨?_, ?_, ?_⟩
  · intro srv srv2 input hne hmiss
    exact ⟨hroute srv input hne hmiss,
      (hroute srv input hne hmiss).trans (hroute srv2 input hne hmiss).symm⟩
  · intro input c
    simp [missingOf, List.mem_filter, Option.isNone_iff_eq_none]
  · intro srv srv2 body d hconv hmiss
    exact ⟨hsms srv body d hconv hmiss,
      (hsms srv body d hconv hmiss).trans (hsms srv2 body d hconv hmiss).symm⟩

/-- Claim C2 witness: the amended statement at a concrete body lacking
`Humidity` on `/predict`, and at the SMS body `"temp:25"` (which lacks
seven fields and whose one numeric value converts). -/
theorem C2_missing_fields_witness :
    (predictRoute srvW (some inputMiss)
        = Resp.err 400 ("Missing required fields: " ++ pyListRepr (missingOf inputMiss))
      ∧ predictRoute srvW (some inputMiss) = predictRoute srv0 (some inputMiss))
    ∧ ("Humidity" ∈ missingOf inputMiss
        ↔ "Humidity" ∈ MODEL_COLUMNS ∧ dget? inputMiss "Humidity" = none)
    ∧ (smsReplyBody srvW "temp:25"
        = "Missing fields: "
          ++ String.intercalate ", " (missingOf [("Temparature", Val.num 25)])
          ++ ". Please send all required data."
      ∧ smsReplyBody srvW "temp:25" = smsReplyBody srv0 "temp:25") :=
  ⟨C2_missing_fields.1 srvW srv0 inputMiss (by decide) (by decide),
    C2_missing_fields.2.1 inputMiss "Humidity",
    C2_missing_fields.2.2 srvW srv0 "temp:25" [("Temparature", Val.num 25)]
      (by with_unfolding_all decide) (by decide)⟩

/-- Claim C7, counterexample: on the `/predict` JSON path a non-numeric
string in a numeric field is not coerced and does not fail validation: with
`Temparature = "abc"` the route answers success, and the predicted class
(7 versus 0) shows the raw string reached the model inside the feature
row. -/
theorem C7_cex :
    respCode (predictRoute srvAbc (some inputAbc)) = some 7
    ∧ respCode (predictRoute srvAbc (some inputW)) = some 0 := by
  exact ⟨by with_unfolding_all decide, by with_unfolding_all decide⟩

/-- Claim C7, amended: on the `/sms` path the six numeric fields are
coerced to floats before the model is invoked (every numeric field present
after a successful conversion holds a number), a present numeric field
whose string fails float parsing aborts the conversion, and the webhook
then answers the error-processing text; the `/predict` JSON path performs
no such coercion. -/
theorem C7_numeric_coercion :
    (∀ (d d2 : Dict), convertNumerics d = Except.ok d2 →
      ∀ f, f ∈ NUMERIC_FIELDS → ∀ v, dget? d2 f = some v → ∃ q, v = Val.num q)
    ∧ (∀ (d : Dict) (f s : String), f ∈ NUMERIC_FIELDS →
        dget? d f = some (Val.str s) → parseFloat? s = none →
        ∀ d2, convertNumerics d ≠ Except.ok d2)
    ∧ (∀ (srv : Server) (body e : String),
        convertNumerics (parseSms body) = Except.error e →
        smsReplyBody srv body = "Error processing your request: " ++ e) := by
  refine ⟨?_, ?_, ?_⟩
  · intro d d2 h f hf v hv
    exact convertAux_num NUMERIC_FIELDS f d d2 h (Or.inl hf) v hv
  · intro d f s hf hv hp d2
    exact convertAux_err NUMERIC_FIELDS f s hf d hv hp d2
  · intro srv body e herr
    simp only [smsReplyBody, herr]

/-- Claim C7 witness: the conversion of `"temp:25"` stores the number 25 in
`Temparature`, the unparseable `"abc"` value blocks conversion, and the
concrete SMS reply carries the float error. -/
theorem C7_numeric_coercion_witness :
    (∃ q, Val.num 25 = Val.num q)
    ∧ (∀ d2, convertNumerics [("Temparature", Val.str "abc")] ≠ Except.ok d2)
    ∧ smsReplyBody srv0 "temp:abc"
        = "Error processing your request: could not convert string to float: 'abc'" :=
  ⟨C7_numeric_coercion.1 (parseSms "temp:25") [("Temparature", Val.num 25)]
      (by with_unfolding_all decide) "Temparature" (by decide) (Val.num 25) (by decide),
    C7_numeric_coercion.2.1 [("Temparature", Val.str "abc")] "Temparature" "abc"
      (by decide) (by decide) (by decide),
    C7_numeric_coercion.2.2 srv0 "temp:abc"
      "could not convert string to float: 'abc'" (by with_unfolding_all decide)⟩

set_option maxRecDepth 4000 in
/-- Claim C8, counterexample: with no model loaded, a valid `/predict`
request is answered on the generic internal-error path with status 500 (the
`AttributeError` from `None.predict` wrapped by `predict`), and no reply
with status 503 exists. -/
theorem C8_cex :
    predictRoute srv0 (some inputW)
        = Resp.err 500 "Prediction failed: 'NoneType' object has no attribute 'predict'"
      ∧ ∀ msg : String, predictRoute srv0 (some inputW) ≠ Resp.err 503 msg := by
  have h : predictRoute srv0 (some inputW)
      = Resp.err 500 "Prediction failed: 'NoneType' object has no attribute 'predict'" := by
    with_unfolding_all decide
  refine ⟨h, fun msg hc => ?_⟩
  rw [h] at hc
  simp at hc

/-- Claim C8, amended: when the model handle is `None`, `predict` raises
the wrapped `AttributeError` and the `/predict` route surfaces it as a 500
on the same generic internal-error path (no distinct 503-equivalent
exists in the code). -/
theorem C8_model_none_500 (srv : Server) (input : Dict)
    (hm : srv.model = none) (hmiss : missingOf input = [])
    (hsoil : ∃ soil, valCode soil_type_map (soilVal input) = some soil)
    (hcrop : ∃ crop, valCode crop_type_map (cropVal input) = some crop) :
    predict srv input
        = Except.error "Prediction failed: 'NoneType' object has no attribute 'predict'"
      ∧ predictRoute srv (some input)
        = Resp.err 500 "Prediction failed: 'NoneType' object has no attribute 'predict'" := by
  obtain ⟨soil, hsoil⟩ := hsoil
  obtain ⟨crop, hcrop⟩ := hcrop
  have hp : predict srv input
      = Except.error "Prediction failed: 'NoneType' object has no attribute 'predict'" := by
    simp only [predict, find?_none_of_missing_nil hmiss, hsoil, hcrop, hm]
  have hne : input ≠ [] := by
    intro h0
    rw [h0] at hmiss
    exact absurd hmiss (by decide)
  refine ⟨hp, ?_⟩
  rw [predictRoute_valid srv input hne hmiss, hp]

/-- Claim C8 witness: the amended statement at the unloaded server and the
valid concrete input. -/
theorem C8_model_none_500_witness :
    predict srv0 inputW
        = Except.error "Prediction failed: 'NoneType' object has no attribute 'predict'"
      ∧ predictRoute srv0 (some inputW)
        = Resp.err 500 "Prediction failed: 'NoneType' object has no attribute 'predict'" :=
  C8_model_none_500 srv0 inputW rfl (by decide) ⟨0, by decide⟩ ⟨0, by decide⟩

/-- Claim C9: if either artifact is absent or fails to deserialize,
`load_model` returns `False` without raising, the server keeps no model,
and `/health` reports `unhealthy` with `model_loaded = false`. -/
theorem C9_degraded_load (env : LoadEnv)
    (h : env.fertilizerExists = false ∨ (∃ e, env.fertilizerLoad = Except.error e)
      ∨ env.classifierExists = false ∨ (∃ e, env.classifierLoad = Except.error e)) :
    (load_model env { model := none, label_encoder := none }).1 = false
    ∧ (initServer env).model = none
    ∧ health_check (initServer env) = ("unhealthy", false) := by
  obtain ⟨fe, ce, fl, cl⟩ := env
  cases fe <;> cases ce <;> cases fl <;> cases cl <;>
    simp_all [load_model, initServer, health_check]

/-- Claim C9 witness: the degraded outcome when both artifact files are
absent. -/
theorem C9_degraded_load_witness :
    (load_model envW { model := none, label_encoder := none }).1 = false
    ∧ (initServer envW).model = none
    ∧ health_check (initServer envW) = ("unhealthy", false) :=
  C9_degraded_load envW (Or.inl rfl)

/-- Claim C10: SMS keys are lower-cased and mapped through the synonym
table with unrecognized keys kept verbatim, a later duplicate key
overwrites an earlier one, the table lacks the model's own column name
`temparature`, and an SMS spelling out `Temparature:25` therefore gets a
missing-fields reply naming `Temparature` instead of a prediction. -/
theorem C10_sms_key_mapping :
    (∀ key : String, List.lookup key key_map = none → mapKey key = key)
    ∧ (∀ key v : String, List.lookup key key_map = some v → mapKey key = v)
    ∧ (∀ (d : Dict) (k : String) (v w : Val),
        dget? (dinsert (dinsert d k v) k w) k = some w)
    ∧ List.lookup "temparature" key_map = none
    ∧ (∀ srv : Server,
        smsReplyBody srv
          "Temparature:25,Humidity:60,Moisture:30,Soil_Type:Sandy,Crop_Type:Wheat,N:50,P:30,K:20"
          = "Missing fields: Temparature. Please send all required data.") := by
  refine ⟨?_, ?_, ?_, by decide, fun srv => rfl⟩
  · intro key h
    rw [mapKey, h]
    rfl
  · intro key v h
    rw [mapKey, h]
    rfl
  · intro d k v w
    exact dget?_dinsert_self (dinsert d k v) k w

/-- Claim C10 witness: `temparature` is kept verbatim while `temp` maps to
the model column, and a duplicated key keeps the later value. -/
theorem C10_sms_key_mapping_witness :
    mapKey "temparature" = "temparature"
    ∧ mapKey "temp" = "Temparature"
    ∧ dget? (dinsert (dinsert [] "Humidity" (Val.str "1")) "Humidity" (Val.str "2"))
        "Humidity" = some (Val.str "2") :=
  ⟨C10_sms_key_mapping.1 "temparature" (by decide),
    C10_sms_key_mapping.2.1 "temp" "Temparature" (by decide),
    C10_sms_key_mapping.2.2.1 [] "Humidity" (Val.str "1") (Val.str "2")⟩
